import Mathlib

/-!
Shallow embedding of the in-memory text / subtitle data model declared in
src/common/serialization/subtitles/subtitles_ser.h (classes GameTextBank,
GameTextDB, GameSubtitleSceneInfo, GameSubtitleBank, GameSubtitleGroups,
GameSubtitleDB).

Modelling conventions:
* std::map / std::unordered_map containers are modelled as association
  lists with unique keys (`alist_find` / `alist_insert`); no settled
  property depends on iteration order of these maps.
* std::shared_ptr<Bank> values are modelled by the bank value itself.
* A failing ASSERT(...) aborts before any mutation; it is modelled as a
  DuplicateKey error answer paired with the unchanged container.
* std::map::at on a missing key throws; it is modelled as a NotFound
  error (Except).
* std::sort (called in add_line / add_clear_entry) only guarantees a
  sorted permutation; the order of elements that compare equal is
  unspecified, since std::sort is not a stable sort.  It is therefore
  modelled relationally by `stdSortResult`.
-/

/-- Lookup in an association list: value of the first binding of key k. -/
def alist_find {α β : Type} [DecidableEq α] (k : α) : List (α × β) → Option β
  | [] => none
  | p :: rest => if p.1 = k then some p.2 else alist_find k rest

/-- Map element assignment m[k] = v: replaces the binding of k when present,
otherwise appends a new binding for k. -/
def alist_insert {α β : Type} [DecidableEq α] (k : α) (v : β) :
    List (α × β) → List (α × β)
  | [] => [(k, v)]
  | p :: rest => if p.1 = k then (k, v) :: rest else p :: alist_insert k v rest

/-- Failure outcomes of the mutation / lookup operations: a failing
ASSERT on a key collision is DuplicateKey, a std::map::at (or .at chain) on a
missing key is NotFound. -/
inductive DBError where
  | DuplicateKey
  | NotFound
deriving DecidableEq

/-- GameTextBank (subtitles_ser.h lines 84-98): all lines, accessed by an
integer ID, for one language. -/
structure GameTextBank where
  m_lang_id : Int
  m_lines : List (Int × String)
deriving DecidableEq

/-- GameTextBank::lang (line 88). -/
def GameTextBank.lang (b : GameTextBank) : Int := b.m_lang_id

/-- GameTextBank::lines (line 89). -/
def GameTextBank.lines (b : GameTextBank) : List (Int × String) := b.m_lines

/-- GameTextBank::line_exists (line 91): m_lines.find(id) != m_lines.end(). -/
def GameTextBank.line_exists (b : GameTextBank) (id : Int) : Bool :=
  (alist_find id b.m_lines).isSome

/-- GameTextBank::line (line 92): m_lines.at(id); throws (NotFound) when the
id is absent. -/
def GameTextBank.line (b : GameTextBank) (id : Int) : Except DBError String :=
  match alist_find id b.m_lines with
  | none => Except.error DBError.NotFound
  | some s => Except.ok s

/-- GameTextBank::set_line (line 93): m_lines[id] = line (upsert, never
fails). -/
def GameTextBank.set_line (b : GameTextBank) (id : Int) (line : String) :
    GameTextBank :=
  { b with m_lines := alist_insert id line b.m_lines }

/-- GameTextDB (lines 104-134): a text bank for each language of each text
group; m_banks maps group name to (language id -> bank). -/
structure GameTextDB where
  m_banks : List (String × List (Int × GameTextBank))
deriving DecidableEq

/-- GameTextDB::groups (lines 106-109): returns m_banks. -/
def GameTextDB.groups (db : GameTextDB) : List (String × List (Int × GameTextBank)) :=
  db.m_banks

/-- GameTextDB::banks (lines 110-112): m_banks.at(group); throws (NotFound)
when the group is absent. -/
def GameTextDB.banks (db : GameTextDB) (group : String) :
    Except DBError (List (Int × GameTextBank)) :=
  match alist_find group db.m_banks with
  | none => Except.error DBError.NotFound
  | some m => Except.ok m

/-- GameTextDB::bank_exists (lines 114-118): false when the group is absent,
otherwise whether the inner map has the language id. -/
def GameTextDB.bank_exists (db : GameTextDB) (group : String) (id : Int) : Bool :=
  match alist_find group db.m_banks with
  | none => false
  | some m => (alist_find id m).isSome

/-- GameTextDB::add_bank (lines 120-124): ASSERT(!bank_exists(group, lang))
then m_banks[group][lang] = bank (operator[] creates the group entry when
absent); returns the stored bank. -/
def GameTextDB.add_bank (db : GameTextDB) (group : String) (bank : GameTextBank) :
    Except DBError GameTextBank × GameTextDB :=
  if db.bank_exists group bank.lang then (Except.error DBError.DuplicateKey, db)
  else
    let inner := (alist_find group db.m_banks).getD []
    (Except.ok bank,
      { m_banks := alist_insert group (alist_insert bank.lang bank inner) db.m_banks })

/-- GameTextDB::bank_by_id (lines 125-130): nullptr (none) when
!bank_exists(group, id), otherwise m_banks.at(group).at(id). -/
def GameTextDB.bank_by_id (db : GameTextDB) (group : String) (id : Int) :
    Option GameTextBank :=
  if db.bank_exists group id then
    (alist_find group db.m_banks).bind (fun m => alist_find id m)
  else none

/-- SubtitleSceneKind (line 140). -/
inductive SubtitleSceneKind where
  | Invalid
  | Movie
  | Hint
  | HintNamed
deriving DecidableEq

/-- GameSubtitleSceneInfo::SubtitleLine (lines 143-153). -/
structure SubtitleLine where
  frame : Int
  line : String
  speaker : String
  offscreen : Bool
deriving DecidableEq

/-- SubtitleLine::operator< (line 152): comparison looks at frame only. -/
def SubtitleLine.lt (a b : SubtitleLine) : Prop := a.frame < b.frame

instance (a b : SubtitleLine) : Decidable (SubtitleLine.lt a b) := by
  unfold SubtitleLine.lt
  infer_instance

/-- GameSubtitleSceneInfo (lines 141-190). -/
structure GameSubtitleSceneInfo where
  m_name : String
  m_id : Int
  m_lines : List SubtitleLine
  m_kind : SubtitleSceneKind
  m_sorting_group : String
  m_sorting_group_idx : Int
deriving DecidableEq

/-- GameSubtitleSceneInfo::name (line 157). -/
def GameSubtitleSceneInfo.name (s : GameSubtitleSceneInfo) : String := s.m_name

/-- GameSubtitleSceneInfo::lines (line 158). -/
def GameSubtitleSceneInfo.lines (s : GameSubtitleSceneInfo) : List SubtitleLine :=
  s.m_lines

/-- GameSubtitleSceneInfo::id (line 159). -/
def GameSubtitleSceneInfo.id (s : GameSubtitleSceneInfo) : Int := s.m_id

/-- GameSubtitleSceneInfo::kind (line 160). -/
def GameSubtitleSceneInfo.kind (s : GameSubtitleSceneInfo) : SubtitleSceneKind :=
  s.m_kind

/-- GameSubtitleSceneInfo::clear_lines (line 162). -/
def GameSubtitleSceneInfo.clear_lines (s : GameSubtitleSceneInfo) :
    GameSubtitleSceneInfo :=
  { s with m_lines := [] }

/-- GameSubtitleSceneInfo::set_name (line 163). -/
def GameSubtitleSceneInfo.set_name (s : GameSubtitleSceneInfo) (new_name : String) :
    GameSubtitleSceneInfo :=
  { s with m_name := new_name }

/-- GameSubtitleSceneInfo::set_id (line 164). -/
def GameSubtitleSceneInfo.set_id (s : GameSubtitleSceneInfo) (new_id : Int) :
    GameSubtitleSceneInfo :=
  { s with m_id := new_id }

/-- GameSubtitleSceneInfo::from_other_scene (lines 165-170): copies m_name,
m_lines, m_kind, m_id from the other scene; the remaining members
(m_sorting_group, m_sorting_group_idx) are not touched. -/
def GameSubtitleSceneInfo.from_other_scene (a scene : GameSubtitleSceneInfo) :
    GameSubtitleSceneInfo :=
  { a with
    m_name := scene.name
    m_lines := scene.lines
    m_kind := scene.kind
    m_id := scene.id }

/-- Contract of the std::sort calls at lines 175 and 181: the output is a
permutation of the input that is sorted with respect to
SubtitleLine::operator< (for adjacent-in-order elements a then b, not b < a).
The relative order of elements with equal frame is unspecified - std::sort is
not stable - so this is a relation, not a function. -/
def stdSortResult (input output : List SubtitleLine) : Prop :=
  input.Perm output ∧ output.Pairwise (fun a b => ¬ SubtitleLine.lt b a)

instance (input output : List SubtitleLine) : Decidable (stdSortResult input output) := by
  unfold stdSortResult
  infer_instance

/-- The two mutation calls of GameSubtitleSceneInfo that grow m_lines. -/
inductive SceneOp where
  | add_line (frame : Int) (line speaker : String) (offscreen : Bool)
  | add_clear_entry (frame : Int)

/-- The SubtitleLine each call appends before sorting: add_line (line 173)
appends SubtitleLine(frame, line, speaker, offscreen); add_clear_entry
(line 179) appends SubtitleLine(frame, "", "", false). -/
def SceneOp.appended : SceneOp → SubtitleLine
  | SceneOp.add_line f l s o => ⟨f, l, s, o⟩
  | SceneOp.add_clear_entry f => ⟨f, "", "", false⟩

/-- One call of add_line / add_clear_entry (lines 172-182), acting on the
m_lines vector (the only member either call touches): emplace_back of the new
line followed by std::sort over the whole vector. -/
def sceneOpStep (op : SceneOp) (before after : List SubtitleLine) : Prop :=
  stdSortResult (before ++ [op.appended]) after

instance (op : SceneOp) (before after : List SubtitleLine) :
    Decidable (sceneOpStep op before after) := by
  unfold sceneOpStep
  infer_instance

/-- A sequence of add_line / add_clear_entry calls relating the initial and
final contents of m_lines. -/
inductive sceneOpTrace : List SubtitleLine → List SceneOp → List SubtitleLine → Prop
  | nil (ls : List SubtitleLine) : sceneOpTrace ls [] ls
  | cons {ls ls' ls'' : List SubtitleLine} {op : SceneOp} {ops : List SceneOp} :
      sceneOpStep op ls ls' → sceneOpTrace ls' ops ls'' →
      sceneOpTrace ls (op :: ops) ls''

/-- Formalisation of the ordering the spec claims (stable tie-break): insert
the new line after every line whose frame is less than or equal to its own,
so equal frames keep insertion order. -/
def specStableInsert (x : SubtitleLine) : List SubtitleLine → List SubtitleLine
  | [] => [x]
  | y :: ys => if x.frame < y.frame then x :: y :: ys else y :: specStableInsert x ys

/-- Formalisation of the spec's claimed result of a call sequence: the
appended lines, stably sorted by frame in insertion order. -/
def specStableSortByFrame (l : List SubtitleLine) : List SubtitleLine :=
  l.foldl (fun acc x => specStableInsert x acc) []

/-- GameSubtitleBank (lines 195-213): subtitles for all scenes of one
language, keyed by scene name. -/
structure GameSubtitleBank where
  m_lang_id : Int
  m_text_version : String
  m_file_path : String
  m_scenes : List (String × GameSubtitleSceneInfo)
deriving DecidableEq

/-- GameSubtitleBank::lang (line 199). -/
def GameSubtitleBank.lang (b : GameSubtitleBank) : Int := b.m_lang_id

/-- GameSubtitleBank::scenes (line 200). -/
def GameSubtitleBank.scenes (b : GameSubtitleBank) :
    List (String × GameSubtitleSceneInfo) := b.m_scenes

/-- GameSubtitleBank::scene_exists (line 202). -/
def GameSubtitleBank.scene_exists (b : GameSubtitleBank) (name : String) : Bool :=
  (alist_find name b.m_scenes).isSome

/-- GameSubtitleBank::scene_by_name (line 203): m_scenes.at(name); throws
(NotFound) when the name is absent. -/
def GameSubtitleBank.scene_by_name (b : GameSubtitleBank) (name : String) :
    Except DBError GameSubtitleSceneInfo :=
  match alist_find name b.m_scenes with
  | none => Except.error DBError.NotFound
  | some s => Except.ok s

/-- GameSubtitleBank::add_scene (lines 204-207): ASSERT(!scene_exists(name))
then m_scenes.insert({name, scene}). -/
def GameSubtitleBank.add_scene (b : GameSubtitleBank) (scene : GameSubtitleSceneInfo) :
    Except DBError Unit × GameSubtitleBank :=
  if b.scene_exists scene.name then (Except.error DBError.DuplicateKey, b)
  else (Except.ok (), { b with m_scenes := alist_insert scene.name scene b.m_scenes })

/-- GameSubtitleGroups (lines 215-228): group ordering and per-group scene
lists; only the data members and the two string constants are given in the
header, the member function bodies live in a .cpp file outside these
sources. -/
structure GameSubtitleGroups where
  m_group_order : List String
  m_groups : List (String × List String)
  group_order_key : String
  uncategorized_group : String
deriving DecidableEq

/-- Modelled from the spec: the body of GameSubtitleGroups::add_scene
(declared at line 224) is not among the given sources.  Per the spec it
"ensures group_name exists in group_order (appending if new) and appends
scene_name to that group's list if not already present". -/
def GameSubtitleGroups.add_scene (g : GameSubtitleGroups)
    (group_name scene_name : String) : GameSubtitleGroups :=
  let g1 := if group_name ∈ g.m_group_order then g
    else { g with m_group_order := g.m_group_order ++ [group_name] }
  let cur := (alist_find group_name g1.m_groups).getD []
  if scene_name ∈ cur then g1
  else { g1 with m_groups := alist_insert group_name (cur ++ [scene_name]) g1.m_groups }

/-- Modelled from the spec: the body of GameSubtitleGroups::remove_scene
(declared at line 223) is not among the given sources.  Per the spec it
"removes scene_name from the named group's list if present; no error if
either does not exist (no-op)". -/
def GameSubtitleGroups.remove_scene (g : GameSubtitleGroups)
    (group_name scene_name : String) : GameSubtitleGroups :=
  match alist_find group_name g.m_groups with
  | none => g
  | some l =>
    { g with m_groups := alist_insert group_name (l.erase scene_name) g.m_groups }

/-- Modelled from the spec: the body of GameSubtitleGroups::find_group
(declared at line 221) is not among the given sources.  Per the spec it
"returns the group name containing scene_name, or the default/fallback group
name if the scene is not assigned to any group; never fails". -/
def GameSubtitleGroups.find_group (g : GameSubtitleGroups) (scene_name : String) :
    String :=
  match g.m_groups.find? (fun p => decide (scene_name ∈ p.2)) with
  | some p => p.1
  | none => g.uncategorized_group

/-- Modelled from the spec: the body of GameSubtitleGroups::find_group_index
(declared at line 222) is not among the given sources.  Per the spec it
"returns the position of group_name within group_order, or a sentinel
'not found' value (e.g., -1) if absent". -/
def GameSubtitleGroups.find_group_index (g : GameSubtitleGroups)
    (group_name : String) : Int :=
  match g.m_group_order.indexOf? group_name with
  | some i => (i : Int)
  | none => -1

/-- GameSubtitleDB (lines 234-254): a subtitle bank for each language, plus
the (possibly absent) shared groups registry. -/
structure GameSubtitleDB where
  m_banks : List (Int × GameSubtitleBank)
  m_subtitle_groups : Option GameSubtitleGroups
deriving DecidableEq

/-- GameSubtitleDB::banks (line 236). -/
def GameSubtitleDB.banks (db : GameSubtitleDB) : List (Int × GameSubtitleBank) :=
  db.m_banks

/-- GameSubtitleDB::bank_exists (line 238). -/
def GameSubtitleDB.bank_exists (db : GameSubtitleDB) (id : Int) : Bool :=
  (alist_find id db.m_banks).isSome

/-- GameSubtitleDB::add_bank (lines 240-244): ASSERT(!bank_exists(lang)) then
m_banks[lang] = bank; returns the stored bank. -/
def GameSubtitleDB.add_bank (db : GameSubtitleDB) (bank : GameSubtitleBank) :
    Except DBError GameSubtitleBank × GameSubtitleDB :=
  if db.bank_exists bank.lang then (Except.error DBError.DuplicateKey, db)
  else (Except.ok bank, { db with m_banks := alist_insert bank.lang bank db.m_banks })

/-- GameSubtitleDB::bank_by_id (lines 245-250): nullptr (none) when
!bank_exists(id), otherwise m_banks.at(id). -/
def GameSubtitleDB.bank_by_id (db : GameSubtitleDB) (id : Int) :
    Option GameSubtitleBank :=
  if db.bank_exists id then alist_find id db.m_banks else none

/-! Helper lemmas about the association-list map model. -/

theorem alist_find_insert_self {α β : Type} [DecidableEq α] (k : α) (v : β)
    (m : List (α × β)) : alist_find k (alist_insert k v m) = some v := by
  induction m with
  | nil => simp [alist_insert, alist_find]
  | cons p rest ih =>
    by_cases h : p.1 = k
    · simp [alist_insert, h, alist_find]
    · simp [alist_insert, h, alist_find, ih]

theorem alist_find_insert_ne {α β : Type} [DecidableEq α] (k k' : α) (v : β)
    (m : List (α × β)) (h : k' ≠ k) :
    alist_find k' (alist_insert k v m) = alist_find k' m := by
  induction m with
  | nil => simp [alist_insert, alist_find, Ne.symm h]
  | cons p rest ih =>
    by_cases hp : p.1 = k
    · subst hp
      simp [alist_insert, alist_find, Ne.symm h]
    · simp [alist_insert, hp, alist_find, ih]

theorem alist_insert_mem {α β : Type} [DecidableEq α] {k : α} {v : β}
    {m : List (α × β)} {p : α × β} (hmem : p ∈ alist_insert k v m) :
    p = (k, v) ∨ p ∈ m := by
  induction m with
  | nil =>
    simp [alist_insert] at hmem
    exact Or.inl hmem
  | cons q rest ih =>
    by_cases hq : q.1 = k
    · simp [alist_insert, hq] at hmem
      rcases hmem with h | h
      · exact Or.inl h
      · exact Or.inr (List.mem_cons_of_mem q h)
    · simp only [alist_insert, hq, if_false, List.mem_cons] at hmem
      rcases hmem with h | h
      · subst h
        exact Or.inr (List.mem_cons_self p rest)
      · rcases ih h with h' | h'
        · exact Or.inl h'
        · exact Or.inr (List.mem_cons_of_mem q h')

theorem alist_insert_insert {α β : Type} [DecidableEq α] (k : α) (v w : β)
    (m : List (α × β)) :
    alist_insert k v (alist_insert k w m) = alist_insert k v m := by
  induction m with
  | nil => simp [alist_insert]
  | cons q rest ih =>
    by_cases hq : q.1 = k
    · simp [alist_insert, hq]
    · simp [alist_insert, hq, ih]

/-- C5: GameTextBank::set_line is an upsert that never fails; after
set_line(id, t1) followed by set_line(id, t2), line_exists(id) is true and
line(id) returns t2 (silent overwrite). -/
theorem C5_set_line_upsert_overwrites (b : GameTextBank) (id : Int)
    (t1 t2 : String) :
    ((b.set_line id t1).set_line id t2).line_exists id = true ∧
    ((b.set_line id t1).set_line id t2).line id = Except.ok t2 := by
  constructor
  · simp [GameTextBank.set_line, GameTextBank.line_exists, alist_find_insert_self]
  · simp [GameTextBank.set_line, GameTextBank.line, alist_find_insert_self]

/-- C9: GameSubtitleSceneInfo::from_other_scene copies m_name, m_lines,
m_kind and m_id from the other scene and leaves m_sorting_group and
m_sorting_group_idx of the receiver unchanged. -/
theorem C9_from_other_scene_copies_fields (a b : GameSubtitleSceneInfo) :
    (a.from_other_scene b).m_name = b.m_name ∧
    (a.from_other_scene b).m_lines = b.m_lines ∧
    (a.from_other_scene b).m_kind = b.m_kind ∧
    (a.from_other_scene b).m_id = b.m_id ∧
    (a.from_other_scene b).m_sorting_group = a.m_sorting_group ∧
    (a.from_other_scene b).m_sorting_group_idx = a.m_sorting_group_idx :=
  ⟨rfl, rfl, rfl, rfl, rfl, rfl⟩

/-- C10: GameTextDB::banks uses m_banks.at(group) and therefore fails
(NotFound) when the named group does not exist, unlike bank_by_id, which
returns the absent indicator on the same missing group. -/
theorem C10_banks_fails_on_missing_group (db : GameTextDB) (grp : String)
    (i : Int) (h : alist_find grp db.m_banks = none) :
    db.banks grp = Except.error DBError.NotFound ∧
    db.bank_by_id grp i = none := by
  constructor
  · simp [GameTextDB.banks, h]
  · simp [GameTextDB.bank_by_id, GameTextDB.bank_exists, h]

/-- Witness for C10 at the empty database and group "main". -/
theorem C10_banks_fails_on_missing_group_witness :
    alist_find "main" (GameTextDB.mk []).m_banks = none ∧
    ((GameTextDB.mk []).banks "main" = Except.error DBError.NotFound ∧
      (GameTextDB.mk []).bank_by_id "main" 0 = none) :=
  ⟨rfl, C10_banks_fails_on_missing_group (GameTextDB.mk []) "main" 0 rfl⟩

/-- C3: on a missing key the optional lookups GameTextDB::bank_by_id and
GameSubtitleDB::bank_by_id return the absent indicator (none, modelling
nullptr) without failing, while the required lookups GameTextBank::line and
GameSubtitleBank::scene_by_name fail with NotFound. -/
theorem C3_optional_absent_required_notfound
    (tdb : GameTextDB) (grp : String) (i : Int)
    (sdb : GameSubtitleDB) (j : Int)
    (tb : GameTextBank) (id : Int)
    (sb : GameSubtitleBank) (nm : String)
    (h1 : tdb.bank_exists grp i = false)
    (h2 : sdb.bank_exists j = false)
    (h3 : tb.line_exists id = false)
    (h4 : sb.scene_exists nm = false) :
    tdb.bank_by_id grp i = none ∧
    sdb.bank_by_id j = none ∧
    tb.line id = Except.error DBError.NotFound ∧
    sb.scene_by_name nm = Except.error DBError.NotFound := by
  refine ⟨?_, ?_, ?_, ?_⟩
  · simp [GameTextDB.bank_by_id, h1]
  · simp [GameSubtitleDB.bank_by_id, h2]
  · unfold GameTextBank.line_exists at h3
    cases hf : alist_find id tb.m_lines with
    | none => simp [GameTextBank.line, hf]
    | some s => rw [hf] at h3; simp at h3
  · unfold GameSubtitleBank.scene_exists at h4
    cases hf : alist_find nm sb.m_scenes with
    | none => simp [GameSubtitleBank.scene_by_name, hf]
    | some s => rw [hf] at h4; simp at h4

/-- Witness for C3 at empty containers. -/
theorem C3_optional_absent_required_notfound_witness :
    ((GameTextDB.mk []).bank_exists "main" 0 = false ∧
      (GameSubtitleDB.mk [] none).bank_exists 0 = false ∧
      (GameTextBank.mk 0 []).line_exists 7 = false ∧
      (GameSubtitleBank.mk 0 "" "" []).scene_exists "intro" = false) ∧
    ((GameTextDB.mk []).bank_by_id "main" 0 = none ∧
      (GameSubtitleDB.mk [] none).bank_by_id 0 = none ∧
      (GameTextBank.mk 0 []).line 7 = Except.error DBError.NotFound ∧
      (GameSubtitleBank.mk 0 "" "" []).scene_by_name "intro" =
        Except.error DBError.NotFound) :=
  ⟨⟨rfl, rfl, rfl, rfl⟩,
    C3_optional_absent_required_notfound (GameTextDB.mk []) "main" 0
      (GameSubtitleDB.mk [] none) 0 (GameTextBank.mk 0 []) 7
      (GameSubtitleBank.mk 0 "" "" []) "intro" rfl rfl rfl rfl⟩

/-- After GameSubtitleBank::add_scene the scene name is present, whether the
call succeeded or was a duplicate. -/
theorem add_scene_scene_exists (b : GameSubtitleBank) (sc : GameSubtitleSceneInfo) :
    ((b.add_scene sc).2).scene_exists sc.name = true := by
  unfold GameSubtitleBank.add_scene
  by_cases h : b.scene_exists sc.name
  · rw [if_pos h]
    exact h
  · rw [if_neg h]
    simp [GameSubtitleBank.scene_exists, alist_find_insert_self]

/-- After GameSubtitleDB::add_bank the language id is present, whether the
call succeeded or was a duplicate. -/
theorem add_bank_bank_exists (db : GameSubtitleDB) (sb : GameSubtitleBank) :
    ((db.add_bank sb).2).bank_exists sb.lang = true := by
  unfold GameSubtitleDB.add_bank
  by_cases h : db.bank_exists sb.lang
  · rw [if_pos h]
    exact h
  · rw [if_neg h]
    simp [GameSubtitleDB.bank_exists, alist_find_insert_self]

/-- After GameTextDB::add_bank the (group, language) pair is present, whether
the call succeeded or was a duplicate. -/
theorem text_add_bank_bank_exists (tdb : GameTextDB) (grp : String)
    (tb : GameTextBank) :
    ((tdb.add_bank grp tb).2).bank_exists grp tb.lang = true := by
  unfold GameTextDB.add_bank
  by_cases h : tdb.bank_exists grp tb.lang
  · rw [if_pos h]
    exact h
  · rw [if_neg h]
    simp [GameTextDB.bank_exists, alist_find_insert_self]

/-- C2: a second GameSubtitleBank::add_scene, GameSubtitleDB::add_bank or
GameTextDB::add_bank with the same key (scene name, language id, or group
plus language) fails with DuplicateKey, and the container after the failed
call equals the container after the first call - no partial mutation and no
overwrite. -/
theorem C2_duplicate_insert_fails_unchanged
    (b : GameSubtitleBank) (sc : GameSubtitleSceneInfo)
    (db : GameSubtitleDB) (sb : GameSubtitleBank)
    (tdb : GameTextDB) (grp : String) (tb : GameTextBank) :
    (((b.add_scene sc).2.add_scene sc).1 = Except.error DBError.DuplicateKey ∧
      ((b.add_scene sc).2.add_scene sc).2 = (b.add_scene sc).2) ∧
    (((db.add_bank sb).2.add_bank sb).1 = Except.error DBError.DuplicateKey ∧
      ((db.add_bank sb).2.add_bank sb).2 = (db.add_bank sb).2) ∧
    (((tdb.add_bank grp tb).2.add_bank grp tb).1 = Except.error DBError.DuplicateKey ∧
      ((tdb.add_bank grp tb).2.add_bank grp tb).2 = (tdb.add_bank grp tb).2) := by
  refine ⟨?_, ?_, ?_⟩
  · have hex := add_scene_scene_exists b sc
    generalize hb : (b.add_scene sc).2 = b' at hex ⊢
    unfold GameSubtitleBank.add_scene
    rw [if_pos hex]
    exact ⟨rfl, rfl⟩
  · have hex := add_bank_bank_exists db sb
    generalize hd : (db.add_bank sb).2 = db' at hex ⊢
    unfold GameSubtitleDB.add_bank
    rw [if_pos hex]
    exact ⟨rfl, rfl⟩
  · have hex := text_add_bank_bank_exists tdb grp tb
    generalize ht : (tdb.add_bank grp tb).2 = tdb' at hex ⊢
    unfold GameTextDB.add_bank
    rw [if_pos hex]
    exact ⟨rfl, rfl⟩

/-- C4: GameTextDB::add_bank on a (group, language) pair not yet present
inserts the bank and returns the stored bank; afterwards bank_by_id finds it
under the bank's language, and bank_by_id on a different language of that
group that was never added still returns the absent indicator. -/
theorem C4_add_bank_insert_and_lookup (db : GameTextDB) (grp : String)
    (bank : GameTextBank) (j : Int)
    (hnew : db.bank_exists grp bank.lang = false)
    (hj : j ≠ bank.lang)
    (hjabs : db.bank_exists grp j = false) :
    (db.add_bank grp bank).1 = Except.ok bank ∧
    (db.add_bank grp bank).2.bank_by_id grp bank.lang = some bank ∧
    (db.add_bank grp bank).2.bank_by_id grp j = none := by
  have hnot : ¬ db.bank_exists grp bank.lang = true := by simp [hnew]
  unfold GameTextDB.add_bank
  rw [if_neg hnot]
  refine ⟨rfl, ?_, ?_⟩
  · unfold GameTextDB.bank_by_id GameTextDB.bank_exists
    simp [alist_find_insert_self]
  · unfold GameTextDB.bank_by_id GameTextDB.bank_exists
    rw [alist_find_insert_self]
    have hfj : alist_find j (alist_insert bank.lang bank
        ((alist_find grp db.m_banks).getD [])) = none := by
      rw [alist_find_insert_ne bank.lang j bank _ hj]
      unfold GameTextDB.bank_exists at hjabs
      cases hg : alist_find grp db.m_banks with
      | none => simp [alist_find]
      | some m =>
        rw [hg] at hjabs
        simp only [Option.getD_some]
        simp at hjabs
        exact hjabs
    simp [hfj]

/-- Witness for C4: empty database, group "main", a language-0 bank holding
line 5 = "Hello", looked up also at the never-added language 1. -/
theorem C4_add_bank_insert_and_lookup_witness :
    ((GameTextDB.mk []).bank_exists "main" (GameTextBank.mk 0 [(5, "Hello")]).lang = false ∧
      (1 : Int) ≠ (GameTextBank.mk 0 [(5, "Hello")]).lang ∧
      (GameTextDB.mk []).bank_exists "main" 1 = false) ∧
    (((GameTextDB.mk []).add_bank "main" (GameTextBank.mk 0 [(5, "Hello")])).1 =
        Except.ok (GameTextBank.mk 0 [(5, "Hello")]) ∧
      ((GameTextDB.mk []).add_bank "main" (GameTextBank.mk 0 [(5, "Hello")])).2.bank_by_id
          "main" (GameTextBank.mk 0 [(5, "Hello")]).lang =
        some (GameTextBank.mk 0 [(5, "Hello")]) ∧
      ((GameTextDB.mk []).add_bank "main" (GameTextBank.mk 0 [(5, "Hello")])).2.bank_by_id
          "main" 1 = none) :=
  ⟨⟨rfl, by decide, rfl⟩,
    C4_add_bank_insert_and_lookup (GameTextDB.mk []) "main"
      (GameTextBank.mk 0 [(5, "Hello")]) 1 rfl (by decide) rfl⟩

/-- Any m_lines contents reached by add_line / add_clear_entry calls from a
sorted start is non-decreasing in frame. -/
theorem sceneOpTrace_pairwise {ls out : List SubtitleLine} {ops : List SceneOp}
    (h : sceneOpTrace ls ops out)
    (hs : ls.Pairwise (fun a b => a.frame ≤ b.frame)) :
    out.Pairwise (fun a b => a.frame ≤ b.frame) := by
  induction h with
  | nil => exact hs
  | cons hstep _ ih =>
    apply ih
    exact hstep.2.imp (fun hab => Int.not_lt.mp hab)

/-- C1 (amended): after any sequence of add_line / add_clear_entry calls on a
fresh scene, m_lines is non-decreasing in frame.  The equal-frame part of the
original claim fails: std::sort does not promise stability, see the
counterexample. -/
theorem C1_lines_nondecreasing_in_frame (ops : List SceneOp)
    (out : List SubtitleLine) (h : sceneOpTrace [] ops out) :
    out.Pairwise (fun a b => a.frame ≤ b.frame) :=
  sceneOpTrace_pairwise h List.Pairwise.nil

/-- Witness for C1: a two-call run with concrete frames. -/
theorem C1_lines_nondecreasing_in_frame_witness :
    sceneOpTrace [] [SceneOp.add_line 10 "b" "sp" false, SceneOp.add_clear_entry 20]
      [⟨10, "b", "sp", false⟩, ⟨20, "", "", false⟩] ∧
    ([(⟨10, "b", "sp", false⟩ : SubtitleLine), ⟨20, "", "", false⟩]).Pairwise
      (fun a b => a.frame ≤ b.frame) := by
  have ht : sceneOpTrace []
      [SceneOp.add_line 10 "b" "sp" false, SceneOp.add_clear_entry 20]
      [⟨10, "b", "sp", false⟩, ⟨20, "", "", false⟩] :=
    @sceneOpTrace.cons [] [⟨10, "b", "sp", false⟩]
      [⟨10, "b", "sp", false⟩, ⟨20, "", "", false⟩]
      (SceneOp.add_line 10 "b" "sp" false) [SceneOp.add_clear_entry 20]
      (by decide)
      (@sceneOpTrace.cons [⟨10, "b", "sp", false⟩]
        [⟨10, "b", "sp", false⟩, ⟨20, "", "", false⟩]
        [⟨10, "b", "sp", false⟩, ⟨20, "", "", false⟩]
        (SceneOp.add_clear_entry 20) [] (by decide) (sceneOpTrace.nil _))
  exact ⟨ht, C1_lines_nondecreasing_in_frame _ _ ht⟩

/-- C1 counterexample for the tie-break part: inserting (10,"b") then
(10,"a") admits the execution that ends with "a" before "b" - a sorted
permutation std::sort may legitimately produce - which differs from the
stable, insertion-ordered result the claim demands. -/
theorem C1_stable_tie_break_counterexample :
    sceneOpTrace []
      [SceneOp.add_line 10 "b" "sp" false, SceneOp.add_line 10 "a" "sp" false]
      [⟨10, "a", "sp", false⟩, ⟨10, "b", "sp", false⟩] ∧
    [(⟨10, "a", "sp", false⟩ : SubtitleLine), ⟨10, "b", "sp", false⟩] ≠
      specStableSortByFrame
        ([SceneOp.add_line 10 "b" "sp" false,
          SceneOp.add_line 10 "a" "sp" false].map SceneOp.appended) := by
  constructor
  · exact @sceneOpTrace.cons [] [⟨10, "b", "sp", false⟩]
      [⟨10, "a", "sp", false⟩, ⟨10, "b", "sp", false⟩]
      (SceneOp.add_line 10 "b" "sp" false) [SceneOp.add_line 10 "a" "sp" false]
      (by decide)
      (@sceneOpTrace.cons [⟨10, "b", "sp", false⟩]
        [⟨10, "a", "sp", false⟩, ⟨10, "b", "sp", false⟩]
        [⟨10, "a", "sp", false⟩, ⟨10, "b", "sp", false⟩]
        (SceneOp.add_line 10 "a" "sp" false) [] (by decide) (sceneOpTrace.nil _))
  · decide

/-- Two sorted-by-frame permutations of each other whose frames are pairwise
distinct are equal: with distinct frames the sort order is strict, hence
(vacuously) antisymmetric. -/
theorem sorted_perm_nodup_frames_eq (l₁ l₂ : List SubtitleLine)
    (hp : l₁.Perm l₂)
    (h₁ : l₁.Pairwise (fun a b => a.frame ≤ b.frame))
    (h₂ : l₂.Pairwise (fun a b => a.frame ≤ b.frame))
    (hn : (l₁.map (fun x => x.frame)).Nodup) : l₁ = l₂ := by
  haveI : IsAntisymm SubtitleLine (fun a b => a.frame < b.frame) :=
    ⟨fun a b hab hba => absurd hba (Int.not_lt.mpr (le_of_lt hab))⟩
  have hne₁ : l₁.Pairwise (fun a b => a.frame ≠ b.frame) := List.pairwise_map.mp hn
  have hn₂ : (l₂.map (fun x => x.frame)).Nodup :=
    ((hp.map (fun x => x.frame)).nodup_iff).mp hn
  have hne₂ : l₂.Pairwise (fun a b => a.frame ≠ b.frame) := List.pairwise_map.mp hn₂
  have hs₁ : l₁.Pairwise (fun a b => a.frame < b.frame) :=
    (h₁.and hne₁).imp (fun h => lt_of_le_of_ne h.1 h.2)
  have hs₂ : l₂.Pairwise (fun a b => a.frame < b.frame) :=
    (h₂.and hne₂).imp (fun h => lt_of_le_of_ne h.1 h.2)
  exact List.eq_of_perm_of_sorted hp hs₁ hs₂

/-- C6: building a scene through add_line calls with frames and texts
(30,"a"), then (10,"b"), then (20,"c") - any speakers and offscreen flags -
always yields m_lines in exactly the order (10,"b"), (20,"c"), (30,"a"). -/
theorem C6_three_line_order (s1 s2 s3 : String) (o1 o2 o3 : Bool)
    (out : List SubtitleLine)
    (h : sceneOpTrace []
      [SceneOp.add_line 30 "a" s1 o1, SceneOp.add_line 10 "b" s2 o2,
        SceneOp.add_line 20 "c" s3 o3] out) :
    out = [⟨10, "b", s2, o2⟩, ⟨20, "c", s3, o3⟩, ⟨30, "a", s1, o1⟩] := by
  cases h with
  | cons hstep1 h1 =>
    cases h1 with
    | cons hstep2 h2 =>
      cases h2 with
      | cons hstep3 h3 =>
        cases h3 with
        | nil =>
          obtain ⟨hp1, hs1⟩ := hstep1
          obtain ⟨hp2, hs2⟩ := hstep2
          obtain ⟨hp3, hs3⟩ := hstep3
          have e1 := List.perm_singleton.mp hp1.symm
          rw [e1] at hp2
          have e2 : [(⟨10, "b", s2, o2⟩ : SubtitleLine), ⟨30, "a", s1, o1⟩] = _ :=
            sorted_perm_nodup_frames_eq _ _
              (((List.Perm.swap _ _ []).symm).trans hp2)
              (by simp)
              (hs2.imp (fun hab => Int.not_lt.mp hab))
              (by simp)
          rw [← e2] at hp3
          have e3 : [(⟨10, "b", s2, o2⟩ : SubtitleLine), ⟨20, "c", s3, o3⟩,
              ⟨30, "a", s1, o1⟩] = _ :=
            sorted_perm_nodup_frames_eq _ _
              (((List.Perm.swap _ _ []).symm.cons _).trans hp3)
              (by simp)
              (hs3.imp (fun hab => Int.not_lt.mp hab))
              (by simp)
          exact e3.symm

/-- Witness for C6: the concrete three-call run with empty speakers. -/
theorem C6_three_line_order_witness :
    sceneOpTrace []
      [SceneOp.add_line 30 "a" "" false, SceneOp.add_line 10 "b" "" false,
        SceneOp.add_line 20 "c" "" false]
      [⟨10, "b", "", false⟩, ⟨20, "c", "", false⟩, ⟨30, "a", "", false⟩] ∧
    [(⟨10, "b", "", false⟩ : SubtitleLine), ⟨20, "c", "", false⟩,
        ⟨30, "a", "", false⟩] =
      [⟨10, "b", "", false⟩, ⟨20, "c", "", false⟩, ⟨30, "a", "", false⟩] := by
  have ht : sceneOpTrace []
      [SceneOp.add_line 30 "a" "" false, SceneOp.add_line 10 "b" "" false,
        SceneOp.add_line 20 "c" "" false]
      [⟨10, "b", "", false⟩, ⟨20, "c", "", false⟩, ⟨30, "a", "", false⟩] :=
    @sceneOpTrace.cons [] [⟨30, "a", "", false⟩]
      [⟨10, "b", "", false⟩, ⟨20, "c", "", false⟩, ⟨30, "a", "", false⟩]
      (SceneOp.add_line 30 "a" "" false)
      [SceneOp.add_line 10 "b" "" false, SceneOp.add_line 20 "c" "" false]
      (by decide)
      (@sceneOpTrace.cons [⟨30, "a", "", false⟩]
        [⟨10, "b", "", false⟩, ⟨30, "a", "", false⟩]
        [⟨10, "b", "", false⟩, ⟨20, "c", "", false⟩, ⟨30, "a", "", false⟩]
        (SceneOp.add_line 10 "b" "" false) [SceneOp.add_line 20 "c" "" false]
        (by decide)
        (@sceneOpTrace.cons [⟨10, "b", "", false⟩, ⟨30, "a", "", false⟩]
          [⟨10, "b", "", false⟩, ⟨20, "c", "", false⟩, ⟨30, "a", "", false⟩]
          [⟨10, "b", "", false⟩, ⟨20, "c", "", false⟩, ⟨30, "a", "", false⟩]
          (SceneOp.add_line 20 "c" "" false) [] (by decide) (sceneOpTrace.nil _)))
  exact ⟨ht, C6_three_line_order "" "" "" false false false _ ht⟩

/-- Closed form of GameSubtitleGroups.add_scene: the group order gains the
group name when new, and the group's scene list gains the scene name when new
(both branches leave g.m_groups untouched by the order step). -/
theorem add_scene_eq (g : GameSubtitleGroups) (gn sn : String) :
    g.add_scene gn sn =
      { g with
        m_group_order := if gn ∈ g.m_group_order then g.m_group_order
          else g.m_group_order ++ [gn],
        m_groups := if sn ∈ (alist_find gn g.m_groups).getD [] then g.m_groups
          else alist_insert gn
            (((alist_find gn g.m_groups).getD []) ++ [sn]) g.m_groups } := by
  unfold GameSubtitleGroups.add_scene
  by_cases h1 : gn ∈ g.m_group_order <;>
    by_cases h2 : sn ∈ (alist_find gn g.m_groups).getD [] <;>
      simp [h1, h2]

/-- C7: GameSubtitleGroups.add_scene is idempotent - a second identical call
returns the groups registry unchanged, the scene occurs exactly once in the
group's list (provided it was not already duplicated), and the group order is
the one after the first call. -/
theorem C7_groups_add_scene_idempotent (g : GameSubtitleGroups) (gn sn : String)
    (h : ((alist_find gn g.m_groups).getD []).count sn ≤ 1) :
    (g.add_scene gn sn).add_scene gn sn = g.add_scene gn sn ∧
    ((alist_find gn ((g.add_scene gn sn).add_scene gn sn).m_groups).getD []).count sn
      = 1 ∧
    ((g.add_scene gn sn).add_scene gn sn).m_group_order
      = (g.add_scene gn sn).m_group_order := by
  have hmem : gn ∈ (g.add_scene gn sn).m_group_order := by
    rw [add_scene_eq]
    by_cases h1 : gn ∈ g.m_group_order <;> simp [h1]
  have hscene : sn ∈ (alist_find gn (g.add_scene gn sn).m_groups).getD [] := by
    rw [add_scene_eq]
    by_cases h2 : sn ∈ (alist_find gn g.m_groups).getD [] <;>
      simp [h2, alist_find_insert_self]
  have hidem : (g.add_scene gn sn).add_scene gn sn = g.add_scene gn sn := by
    conv_lhs => rw [add_scene_eq]
    rw [if_pos hmem, if_pos hscene]
  refine ⟨hidem, ?_, by rw [hidem]⟩
  rw [hidem, add_scene_eq]
  by_cases h2 : sn ∈ (alist_find gn g.m_groups).getD []
  · simp only [if_pos h2]
    have h1le : 1 ≤ ((alist_find gn g.m_groups).getD []).count sn :=
      List.one_le_count_iff.mpr h2
    omega
  · simp only [if_neg h2, alist_find_insert_self, Option.getD_some]
    rw [List.count_append]
    rw [List.count_eq_zero.mpr h2]
    simp

/-- Witness for C7 at the empty groups registry. -/
theorem C7_groups_add_scene_idempotent_witness :
    ((alist_find "movies"
        (GameSubtitleGroups.mk ["_groups"] [] "_groups" "uncategorized").m_groups).getD
          []).count "intro" ≤ 1 ∧
    (((GameSubtitleGroups.mk ["_groups"] [] "_groups" "uncategorized").add_scene
          "movies" "intro").add_scene "movies" "intro" =
        (GameSubtitleGroups.mk ["_groups"] [] "_groups" "uncategorized").add_scene
          "movies" "intro" ∧
      ((alist_find "movies"
          (((GameSubtitleGroups.mk ["_groups"] [] "_groups" "uncategorized").add_scene
                "movies" "intro").add_scene "movies" "intro").m_groups).getD
            []).count "intro" = 1 ∧
      (((GameSubtitleGroups.mk ["_groups"] [] "_groups" "uncategorized").add_scene
            "movies" "intro").add_scene "movies" "intro").m_group_order =
        ((GameSubtitleGroups.mk ["_groups"] [] "_groups" "uncategorized").add_scene
            "movies" "intro").m_group_order) :=
  ⟨by decide,
    C7_groups_add_scene_idempotent
      (GameSubtitleGroups.mk ["_groups"] [] "_groups" "uncategorized")
      "movies" "intro" (by decide)⟩

theorem alist_find_mem {α β : Type} [DecidableEq α] {k : α} {v : β}
    {m : List (α × β)} (h : alist_find k m = some v) : (k, v) ∈ m := by
  induction m with
  | nil => simp [alist_find] at h
  | cons p rest ih =>
    by_cases hp : p.1 = k
    · simp only [alist_find, if_pos hp] at h
      obtain rfl := Option.some.inj h
      subst hp
      exact List.mem_cons_self p rest
    · simp only [alist_find, if_neg hp] at h
      exact List.mem_cons_of_mem p (ih h)

/-- C8: find_group never fails; when a scene belongs to no group it returns
the fallback group name, and in particular add_scene("movies","intro") then
remove_scene("movies","intro") on a registry where "intro" was in no group
leaves find_group("intro") at the fallback group name. -/
theorem C8_find_group_fallback (g : GameSubtitleGroups) (s : String)
    (hs : ∀ p ∈ g.m_groups, s ∉ p.2)
    (hintro : ∀ p ∈ g.m_groups, "intro" ∉ p.2) :
    g.find_group s = g.uncategorized_group ∧
    ((g.add_scene "movies" "intro").remove_scene "movies" "intro").find_group
        "intro" = g.uncategorized_group := by
  constructor
  · unfold GameSubtitleGroups.find_group
    rw [List.find?_eq_none.mpr (fun p hp => by simpa using hs p hp)]
  · have hcur : "intro" ∉ (alist_find "movies" g.m_groups).getD [] := by
      cases hg : alist_find "movies" g.m_groups with
      | none => simp
      | some l => simpa using hintro ("movies", l) (alist_find_mem hg)
    have hadd : (g.add_scene "movies" "intro").m_groups =
        alist_insert "movies"
          (((alist_find "movies" g.m_groups).getD []) ++ ["intro"]) g.m_groups := by
      rw [add_scene_eq]
      simp [hcur]
    have huncat : (g.add_scene "movies" "intro").uncategorized_group =
        g.uncategorized_group := by
      rw [add_scene_eq]
    unfold GameSubtitleGroups.remove_scene
    rw [hadd, alist_find_insert_self]
    simp only [huncat]
    have herase : (((alist_find "movies" g.m_groups).getD []) ++ ["intro"]).erase
        "intro" = (alist_find "movies" g.m_groups).getD [] := by
      rw [List.erase_append_right _ hcur, List.erase_cons_head, List.append_nil]
    rw [herase, alist_insert_insert]
    unfold GameSubtitleGroups.find_group
    have hnone : (alist_insert "movies" ((alist_find "movies" g.m_groups).getD [])
        g.m_groups).find? (fun p => decide ("intro" ∈ p.2)) = none := by
      apply List.find?_eq_none.mpr
      intro p hp
      rcases alist_insert_mem hp with hcase | hcase
      · subst hcase
        simpa using hcur
      · simpa using hintro p hcase
    rw [hnone]

/-- Witness for C8 at a fresh groups registry and scene name "intro". -/
theorem C8_find_group_fallback_witness :
    ((∀ p ∈ (GameSubtitleGroups.mk ["_groups"] [] "_groups"
          "uncategorized").m_groups, "intro" ∉ p.2) ∧
      (∀ p ∈ (GameSubtitleGroups.mk ["_groups"] [] "_groups"
          "uncategorized").m_groups, "intro" ∉ p.2)) ∧
    ((GameSubtitleGroups.mk ["_groups"] [] "_groups"
          "uncategorized").find_group "intro" =
        (GameSubtitleGroups.mk ["_groups"] [] "_groups"
          "uncategorized").uncategorized_group ∧
      (((GameSubtitleGroups.mk ["_groups"] [] "_groups"
            "uncategorized").add_scene "movies" "intro").remove_scene "movies"
            "intro").find_group "intro" =
        (GameSubtitleGroups.mk ["_groups"] [] "_groups"
          "uncategorized").uncategorized_group) :=
  ⟨⟨fun p hp => absurd hp (List.not_mem_nil p), fun p hp => absurd hp (List.not_mem_nil p)⟩,
    C8_find_group_fallback
      (GameSubtitleGroups.mk ["_groups"] [] "_groups" "uncategorized") "intro"
      (fun p hp => absurd hp (List.not_mem_nil p))
      (fun p hp => absurd hp (List.not_mem_nil p))⟩
